import Mathlib

/-!
Verification of the mutation-journal and restore engine of SCAutolib.

The definitions below are a shallow embedding of `src/env.py` and
`src/env-cli.py`: the journal record dictionaries written by `add_restore`
and read by `cleanup_`, a host-state model (files, directory trees, OS user
accounts), the cleanup engine `cleanup_`, the journal-store append
`add_restore`, the provisioning steps `create_sssd_config`,
`create_virt_card_service` and `setup_virt_card_`, and the CLI command
`cleanup_ca`.  Python exceptions are modelled with `Except`/`Option`
results; the filesystem and the account database are explicit state.
-/

/-- One entry of the `restore` list of the YAML configuration document, as a
partial dictionary: `add_restore` writes keys `type`, `src` and `backup_dir`;
`cleanup_` additionally looks up a `username` key on user records.  A `none`
field models an absent key (a Python `KeyError` on lookup); for `backup_dir`
it also covers an explicit `null`, which `cleanup_` treats the same way. -/
structure Item where
  type_ : String
  src : Option String
  username : Option String
  backup_dir : Option String
deriving Repr, DecidableEq

/-- Association-list lookup, modelling a Python dict indexed by strings. -/
def lookupA (l : List (String × String)) (k : String) : Option String :=
  (l.find? (fun p => p.1 == k)).map Prod.snd

/-- Insert or overwrite a key in an association list. -/
def setA (l : List (String × String)) (k v : String) : List (String × String) :=
  (k, v) :: l.filter (fun p => p.1 != k)

/-- Remove a key from an association list. -/
def removeA (l : List (String × String)) (k : String) : List (String × String) :=
  l.filter (fun p => p.1 != k)

/-- Host state touched by provisioning and cleanup: regular files
(path to content), directory trees (path to an opaque content blob, one entry
per tree as `rmtree`/`copytree` act on whole trees), and OS accounts (name to
home-directory path, `useradd -m` / `userdel -r` manage the home with the
account). -/
structure World where
  files : List (String × String)
  dirs : List (String × String)
  users : List (String × String)
deriving Repr, DecidableEq

/-- Truth of `os.path.exists` on a regular file path. -/
def World.fileExists (w : World) (p : String) : Bool :=
  (lookupA w.files p).isSome

/-- Effect of `open(p, "w")` followed by writing `c`. -/
def World.writeFile (w : World) (p c : String) : World :=
  { w with files := setA w.files p c }

/-- Effect of `os.remove` once the file is known to exist. -/
def World.removeFile (w : World) (p : String) : World :=
  { w with files := removeA w.files p }

/-- Effect of `shutil.rmtree(p, ignore_errors=True)`: deletes the tree when
present, silently does nothing when absent. -/
def World.rmtree (w : World) (p : String) : World :=
  { w with dirs := removeA w.dirs p }

/-- Truth of `pwd.getpwnam` succeeding for an account name. -/
def World.userExists (w : World) (name : String) : Bool :=
  (lookupA w.users name).isSome

/-- Effect of `userdel name -r`: removes the account and its home tree. -/
def World.userdel (w : World) (name : String) : World :=
  { w with
    users := removeA w.users name
    dirs := match lookupA w.users name with
            | some home => removeA w.dirs home
            | none => w.dirs }

/-- Python exceptions that the embedded code can raise. -/
inductive PyErr where
  | keyError (k : String)
  | fileNotFoundError (p : String)
  | calledProcessError
deriving Repr, DecidableEq

/-- Per-record result of the cleanup engine's dispatch on `type`. -/
inductive Outcome where
  | restoredFile
  | deletedFile
  | restoredDir
  | deletedDir
  | deletedUser
  | skippedUnknown
deriving Repr, DecidableEq

/-- Body of the `for` loop of `cleanup_` (env.py lines 507-531) for one
record: computes `src` (`item['src']` unless the type is `user`, else
`item['username']`, a `KeyError` when the key is absent), then dispatches on
`type`.  `file` with a backup is `copyfile(backup, src)`; without one it is
`remove(src)`, which raises when the file is absent.  `dir` is
`rmtree(src, ignore_errors=True)` then, with a backup, `copytree` back.
`user` re-reads `item['username']` and runs `userdel -r`, which fails when
the account is absent.  Any other type is skipped with a warning.  Returns
the host state reached when the body finishes or raises. -/
def cleanupItem (w : World) (item : Item) : World × Except PyErr Outcome :=
  match (if item.type_ != "user" then item.src else item.username) with
  | none =>
      (w, .error (.keyError (if item.type_ != "user" then "src" else "username")))
  | some src =>
    let backup_dir := item.backup_dir
    if item.type_ == "file" then
      match backup_dir with
      | some b =>
        match lookupA w.files b with
        | none => (w, .error (.fileNotFoundError b))
        | some c => (w.writeFile src c, .ok .restoredFile)
      | none =>
        if w.fileExists src then (w.removeFile src, .ok .deletedFile)
        else (w, .error (.fileNotFoundError src))
    else if item.type_ == "dir" then
      let w1 := w.rmtree src
      match backup_dir with
      | some b =>
        match lookupA w1.dirs b with
        | none => (w1, .error (.fileNotFoundError b))
        | some c => ({ w1 with dirs := setA w1.dirs src c }, .ok .restoredDir)
      | none => (w1, .ok .deletedDir)
    else if item.type_ == "user" then
      match item.username with
      | none => (w, .error (.keyError "username"))
      | some username =>
        if w.userExists username then (w.userdel username, .ok .deletedUser)
        else (w, .error .calledProcessError)
    else
      (w, .ok .skippedUnknown)

/-- The cleanup engine `cleanup_` (env.py lines 506-531): a plain `for` loop
over the records with no exception handling, so the first record whose body
raises aborts the loop; the returned pair is the host state when the loop
finishes or aborts and the uncaught exception, when any. -/
def cleanup_ (w : World) : List Item → World × Option PyErr
  | [] => (w, none)
  | item :: rest =>
    match cleanupItem w item with
    | (w', .error e) => (w', some e)
    | (w', .ok _) => cleanup_ w' rest

/-- The YAML configuration document as the journal store sees it:
the reserved `restore` list (`none` when the key is missing entirely), the
nested `local_user.name` value that `cleanup_ca` reads, and the remaining
provisioning settings as an opaque key/value list that every append must
round-trip unchanged. -/
structure Doc where
  restore : Option (List Item)
  local_user_name : Option String
  other : List (String × String)
deriving Repr, DecidableEq

/-- The dictionary literal appended by `add_restore` (env.py line 500):
`{"type": type_, "src": src, "backup_dir": backup}` — the target always goes
under the `src` key, a `username` key is never written. -/
def mkRecord (type_ src : String) (backup : Option String) : Item :=
  { type_ := type_, src := some src, username := none, backup_dir := backup }

/-- The closed set of record kinds `add_restore` recognizes (env.py 497). -/
def knownTypes : List String := ["user", "file", "dir"]

/-- The journal-store append `add_restore` (env.py lines 482-503): loads the
document, warns when the type is outside the known set (but appends anyway),
appends `{"type", "src", "backup_dir"}` to `data["restore"]` — a `KeyError`
when the document has no `restore` key, raised before the write-back — and
dumps the document.  Returns the warning flag and the written document or
the exception. -/
def add_restore (conf : Doc) (type_ src : String) (backup : Option String) :
    Bool × Except PyErr Doc :=
  let warned := decide (type_ ∉ knownTypes)
  match conf.restore with
  | none => (warned, .error (.keyError "restore"))
  | some l =>
      (warned, .ok { conf with restore := some (l ++ [mkRecord type_ src backup]) })

/-- State of the document on disk after one `add_restore` call: the
`KeyError` on a missing `restore` key is raised before `open(CONF, "w")`, so
on error the document on disk is the original one. -/
def add_restore_disk (conf : Doc) (type_ src : String) (backup : Option String) :
    Doc × Bool × Option PyErr :=
  match add_restore conf type_ src backup with
  | (wn, .error e) => (conf, wn, some e)
  | (wn, .ok d) => (d, wn, none)

/-- Repeated appends, one `add_restore` per `(type, src, backup)` triple,
stopping at the first exception as the calling provisioning step would. -/
def appendAll (conf : Doc) :
    List (String × String × Option String) → Doc × Option PyErr
  | [] => (conf, none)
  | (t, s, b) :: rest =>
    match add_restore conf t s b with
    | (_, .error e) => (conf, some e)
    | (_, .ok d) => appendAll d rest

/-- Observable actions of a provisioning step, in execution order: a backup
copy of a target completed, a restore record appended to the journal, the
target overwritten. -/
inductive Event where
  | backupEv (target dest : String)
  | appendEv (item : Item)
  | mutateEv (target : String)
deriving Repr, DecidableEq

/-- Truth of an event being a journal append. -/
def Event.isAppend : Event → Bool
  | .appendEv _ => true
  | _ => false

/-- Truth of an event being a journal append of a record whose kind is not
`file`. -/
def Event.isNonFileAppend : Event → Bool
  | .appendEv it => it.type_ != "file"
  | _ => false

/-- Destination path of a backup artifact under the backup root. -/
def backupDest (backupRoot name : String) : String := backupRoot ++ "/" ++ name

/-- Modelled from the spec: `utils.backup_` lives in `SCAutolib.src.utils`,
which is not under `src/`.  Per the Resource Backup contract, for a file
that exists it copies the content byte-for-byte to a fresh path under the
backup root, named from the supplied name, and returns that path; for an
absent target it returns nothing, there being nothing to preserve; the
target itself is never mutated. -/
def backup_ (backupRoot : String) (w : World) (target name : String) :
    World × Option String :=
  match lookupA w.files target with
  | some c =>
      (w.writeFile (backupDest backupRoot name) c, some (backupDest backupRoot name))
  | none => (w, none)

/-- Path of the SSSD configuration file (env.py line 140). -/
def sssd_conf_path : String := "/etc/sssd/sssd.conf"

/-- Content `ConfigParser.write` produces for the default SSSD sections of
`create_sssd_config` (env.py lines 123-138), as one opaque constant. -/
def sssdDefaultContent : String :=
  "[sssd]\ndebug_level = 9\nservices = nss, pam\ndomains = shadowutils\n" ++
  "[nss]\ndebug_level = 9\n[pam]\ndebug_level = 9\npam_cert_auth = True\n" ++
  "[domain/shadowutils]\ndebug_level = 9\nid_provider = files\n"

/-- The provisioning step `create_sssd_config` (env.py lines 115-149): when
`/etc/sssd/sssd.conf` exists it is first backed up as `sssd-original.conf`
and a `file` restore record with that backup path is appended; then — in
either case — the file is overwritten with the default content.  Returns the
new host state, the new document, the event trace in execution order, and
the uncaught exception when the append raised (in which case the overwrite
is never reached). -/
def create_sssd_config (backupRoot : String) (w : World) (conf : Doc) :
    World × Doc × List Event × Option PyErr :=
  if w.fileExists sssd_conf_path then
    match backup_ backupRoot w sssd_conf_path "sssd-original.conf" with
    | (w1, some bdir) =>
      match add_restore conf "file" sssd_conf_path (some bdir) with
      | (_, .error e) =>
          (w1, conf, [Event.backupEv sssd_conf_path bdir], some e)
      | (_, .ok conf1) =>
          (w1.writeFile sssd_conf_path sssdDefaultContent, conf1,
           [Event.backupEv sssd_conf_path bdir,
            Event.appendEv (mkRecord "file" sssd_conf_path (some bdir)),
            Event.mutateEv sssd_conf_path], none)
    | (w1, none) =>
        (w1.writeFile sssd_conf_path sssdDefaultContent, conf,
         [Event.mutateEv sssd_conf_path], none)
  else
    (w.writeFile sssd_conf_path sssdDefaultContent, conf,
     [Event.mutateEv sssd_conf_path], none)

/-- Path of the per-user virtual-card service unit (env.py line 173). -/
def virt_card_service_path (username : String) : String :=
  "/etc/systemd/system/virt_cacard_" ++ username ++ ".service"

/-- Backup artifact name `create_virt_card_service` derives from the unit
file name (env.py lines 191-192): stem plus `-original.` plus extension. -/
def virt_card_backup_name (username : String) : String :=
  "virt_cacard_" ++ username ++ "-original.service"

/-- Content `ConfigParser.write` produces for the service-unit sections of
`create_virt_card_service` (env.py lines 175-186), as an opaque function of
the username and card directory. -/
def virtCardServiceContent (username card_dir : String) : String :=
  "[Unit]\nDescription = virtual card for " ++ username ++
  "\nRequires = pcscd.service\n[Service]\nEnvironment = SOFTHSM2_CONF=" ++
  card_dir ++ "/conf/softhsm2.conf\nWorkingDirectory = " ++ card_dir ++
  "\nExecStart = /usr/bin/virt_cacard\nKillMode = process\n" ++
  "[Install]\nWantedBy = multi-user.target\n"

/-- The provisioning step `create_virt_card_service` (env.py lines 169-200):
when the unit file exists it is first backed up under its `-original` name
and a `file` restore record with that backup path is appended; then the unit
file is written.  Same result shape as `create_sssd_config`. -/
def create_virt_card_service (backupRoot username card_dir : String)
    (w : World) (conf : Doc) : World × Doc × List Event × Option PyErr :=
  let path := virt_card_service_path username
  if w.fileExists path then
    match backup_ backupRoot w path (virt_card_backup_name username) with
    | (w1, some bdir) =>
      match add_restore conf "file" path (some bdir) with
      | (_, .error e) =>
          (w1, conf, [Event.backupEv path bdir], some e)
      | (_, .ok conf1) =>
          (w1.writeFile path (virtCardServiceContent username card_dir), conf1,
           [Event.backupEv path bdir,
            Event.appendEv (mkRecord "file" path (some bdir)),
            Event.mutateEv path], none)
    | (w1, none) =>
        (w1.writeFile path (virtCardServiceContent username card_dir), conf,
         [Event.mutateEv path], none)
  else
    (w.writeFile path (virtCardServiceContent username card_dir), conf,
     [Event.mutateEv path], none)

/-- User dictionary consumed by `setup_virt_card_` (env.py line 261). -/
structure UserInfo where
  name : String
  card_dir : String
  passwd : String
  local_ : Bool
  cert : Option String
  key : Option String
deriving Repr, DecidableEq

/-- Content of the OpenSSL request config `create_cnf` writes for a user
(env.py lines 88-112), as an opaque function of the username. -/
def userCnfContent (username : String) : String :=
  "[req]\nCN = " ++ username ++ "\n"

/-- Serialized SSSD config after `setup_virt_card_` adds the certmap match
rule for a local user (env.py lines 286-295), as an opaque function of the
previous content and the username. -/
def addCertmap (content username : String) : String :=
  content ++ "[certmap/shadowutils/" ++ username ++ "]\nmatchrule = <SUBJECT>.*CN=" ++
  username ++ ".*\n"

/-- The provisioning step `setup_virt_card_` (env.py lines 261-321) as far
as it touches the journal and the host: for a local user it runs
`useradd -m` when the account is absent, writes the OpenSSL request config
under the card directory, and rewrites `/etc/sssd/sssd.conf` with a certmap
section (reading it first — a `FileNotFoundError` when absent); it then
invokes the external setup script (opaque, given by its exit code).  It
never calls `add_restore`: the configuration document is not touched, and
the trace carries no append event. -/
def setup_virt_card_ (u : UserInfo) (scriptOk : Bool) (w : World) (conf : Doc) :
    World × Doc × List Event × Option PyErr :=
  if u.local_ then
    let w1 := if w.userExists u.name then w
              else { w with users := (u.name, "/home/" ++ u.name) :: w.users }
    let reqPath := u.card_dir ++ "/conf/req_" ++ u.name ++ ".cnf"
    let w2 := w1.writeFile reqPath (userCnfContent u.name)
    match lookupA w2.files sssd_conf_path with
    | none =>
        (w2, conf, [Event.mutateEv reqPath], some (.fileNotFoundError sssd_conf_path))
    | some c =>
      let w3 := w2.writeFile sssd_conf_path (addCertmap c u.name)
      (w3, conf, [Event.mutateEv reqPath, Event.mutateEv sssd_conf_path],
       if scriptOk then none else some .calledProcessError)
  else
    (w, conf, [], if scriptOk then none else some .calledProcessError)

/-- Body of the `cleanup_ca` callback (env-cli.py lines 132-141): reads
`local_user.name` from the configuration document, runs the external
`cleanup-ca` bash script with that username, and asserts the script's
return code is zero — an assertion failure makes the process exit non-zero.
The script is an opaque external collaborator, given as a function from the
username and host state to a new host state and an exit code.  When
`local_user.name` is missing, `read_config` returns `None` and passing it
as a process argument raises, so the body exits non-zero without running
the script.  The restore list of the document is never read and `cleanup_`
is never invoked. -/
def cleanup_ca_body (script : String → World → World × Int) (conf : Doc)
    (w : World) : World × Nat :=
  match conf.local_user_name with
  | none => (w, 1)
  | some username =>
      ((script username w).1, if (script username w).2 == 0 then 0 else 1)

/-- Parameter names of the `cleanup_ca` callback: `def cleanup_ca():`
(env-cli.py line 128) declares none. -/
def cleanup_ca_params : List String := []

/-- Names of the click options declared on the `cleanup-ca` command:
`@click.option("--conf", "-c", ...)` (env-cli.py line 127). -/
def cleanup_ca_options : List String := ["conf"]

/-- Click's dispatch `ctx.invoke(callback, **ctx.params)`: every declared
option is passed to the callback as a keyword argument, with no signature
filtering.  A keyword that is not among the callback's parameters raises
`TypeError` before the body runs, and the uncaught exception makes the
process exit non-zero with the host untouched. -/
def invokeClick (params opts : List String) (body : World → World × Nat)
    (w : World) : World × Nat :=
  if opts.all (fun o => params.contains o) then body w else (w, 1)

/-- The `cleanup-ca` command as actually invoked (env-cli.py lines
126-141): click passes the declared `conf` option to the parameterless
callback, so every invocation raises `TypeError` at dispatch and exits
non-zero; the body — and with it the configuration read and the script —
is never reached. -/
def cleanup_ca (script : String → World → World × Int) (conf : Doc)
    (w : World) : World × Nat :=
  invokeClick cleanup_ca_params cleanup_ca_options (cleanup_ca_body script conf) w

/-! Helper lemmas about the host-state model. -/

/-- Looking up the key just written finds the written value. -/
theorem lookupA_setA_self (l : List (String × String)) (k v : String) :
    lookupA (setA l k v) k = some v := by
  simp [lookupA, setA, List.find?]

/-- A file just written exists. -/
theorem fileExists_writeFile_self (w : World) (p c : String) :
    (w.writeFile p c).fileExists p = true := by
  simp [World.fileExists, World.writeFile, lookupA_setA_self]

/-! Concrete fixtures used by witnesses and counterexamples. -/

/-- Host with the single file `/b`. -/
def cWorldB : World := { files := [("/b", "x")], dirs := [], users := [] }

/-- Host with the single file `/a`. -/
def wFileA : World := { files := [("/a", "x")], dirs := [], users := [] }

/-- Host with the account `alice` and its home tree. -/
def wAlice : World :=
  { files := [], dirs := [("/home/alice", "home")], users := [("alice", "/home/alice")] }

/-- Empty host. -/
def wEmpty : World := { files := [], dirs := [], users := [] }

/-- Configuration document with an empty journal. -/
def confAlice : Doc :=
  { restore := some [], local_user_name := some "alice", other := [("ca_dir", "/ca")] }

/-- Cleanup script stand-in that changes nothing and exits zero. -/
def scriptNoop : String → World → World × Int := fun _ w => (w, 0)

/-- Configuration document whose journal holds one backup-less `file` record
for `/b`. -/
def confJournal : Doc :=
  { restore := some [mkRecord "file" "/b" none], local_user_name := some "alice",
    other := [] }

/-! Claims. -/

/-- C1 counterexample: the claim that a failing record does not prevent the
reversal of subsequent records is false.  On a host where `/a` is absent but
`/b` exists, cleaning `[file /a (no backup), file /b (no backup)]` raises
`FileNotFoundError` on the first record and stops: `/b` still exists
afterwards, although cleaning `[file /b]` alone would have deleted it. -/
theorem cleanup_failure_blocks_rest :
    cleanup_ cWorldB [mkRecord "file" "/a" none, mkRecord "file" "/b" none] =
      (cWorldB, some (PyErr.fileNotFoundError "/a")) ∧
    (cleanup_ cWorldB [mkRecord "file" "/a" none, mkRecord "file" "/b" none]).1.fileExists "/b"
      = true ∧
    cleanup_ cWorldB [mkRecord "file" "/b" none] =
      ({ files := [], dirs := [], users := [] }, none) := by
  refine ⟨rfl, rfl, rfl⟩

/-- C1 (amended): `cleanup_` runs the records in a plain loop with no
exception handling, so the first record whose reversal raises aborts the
pass at the state that record left behind; subsequent records are not
attempted. -/
theorem cleanup_failure_aborts_pass (w w' : World) (item : Item)
    (rest : List Item) (e : PyErr)
    (h : cleanupItem w item = (w', .error e)) :
    cleanup_ w (item :: rest) = (w', some e) := by
  simp [cleanup_, h]

/-- C1 witness: the amended abort behaviour at a concrete journal. -/
theorem cleanup_failure_aborts_pass_witness :
    cleanup_ cWorldB (mkRecord "file" "/a" none :: [mkRecord "file" "/b" none]) =
      (cWorldB, some (PyErr.fileNotFoundError "/a")) :=
  cleanup_failure_aborts_pass cWorldB cWorldB (mkRecord "file" "/a" none)
    [mkRecord "file" "/b" none] (PyErr.fileNotFoundError "/a") rfl

/-- C2: the record `add_restore("user", "alice")` writes carries the account
name under `src` and has no `username` key, but `cleanup_` reads
`item["username"]` on user records, so cleaning that record raises
`KeyError` and deletes nothing: the account `alice` and its home survive,
against both the claim and `add_restore`'s own docstring. -/
theorem user_record_cleanup_raises_keyerror :
    (add_restore_disk confAlice "user" "alice" none).1.restore =
      some [mkRecord "user" "alice" none] ∧
    (mkRecord "user" "alice" none).username = none ∧
    cleanup_ wAlice [mkRecord "user" "alice" none] =
      (wAlice, some (PyErr.keyError "username")) ∧
    wAlice.userExists "alice" = true := by
  refine ⟨rfl, rfl, rfl, rfl⟩

/-- C10: when the loaded document has no `restore` key, `add_restore`
raises `KeyError` before the write-back, so the document on disk stays
exactly as it was; the warning check still ran. -/
theorem add_restore_missing_restore_field (conf : Doc) (t s : String)
    (b : Option String) (h : conf.restore = none) :
    add_restore_disk conf t s b =
      (conf, decide (t ∉ knownTypes), some (PyErr.keyError "restore")) := by
  simp [add_restore_disk, add_restore, h]

/-- C10 witness: a concrete document without the `restore` key is returned
unchanged together with the `KeyError`. -/
theorem add_restore_missing_restore_field_witness :
    add_restore_disk { restore := none, local_user_name := none, other := [("k", "v")] }
      "file" "/a" none =
      ({ restore := none, local_user_name := none, other := [("k", "v")] },
       decide ("file" ∉ knownTypes), some (PyErr.keyError "restore")) :=
  add_restore_missing_restore_field
    { restore := none, local_user_name := none, other := [("k", "v")] }
    "file" "/a" none rfl

/-- Host with the single directory tree `/t`. -/
def wDirT : World := { files := [], dirs := [("/t", "blob")], users := [] }

/-- Host where both the SSSD config and alice's virtual-card unit exist. -/
def wBoth : World :=
  { files := [(sssd_conf_path, "old"), (virt_card_service_path "alice", "unit")],
    dirs := [], users := [] }

/-- Journal-append arguments used by the C7 witness. -/
def recsW : List (String × String × Option String) :=
  [("file", "/x", none), ("dir", "/d", some "/bk")]

/-- C3 counterexample: the claim that mutating a previously-absent target
still produces a journal record (and that the target is gone after cleanup)
is false for both provisioning steps.  On an empty host,
`create_sssd_config` and `create_virt_card_service` each write their new
file but append nothing — the document comes back unchanged and the trace
has no append event — and a cleanup pass over the resulting (empty)
journal leaves each new file in place. -/
theorem absent_target_unjournaled_counterexample :
    (create_sssd_config "/back" wEmpty confAlice).2.1 = confAlice ∧
    ((create_sssd_config "/back" wEmpty confAlice).2.2.1.all fun e => !e.isAppend)
      = true ∧
    ((cleanup_ (create_sssd_config "/back" wEmpty confAlice).1
        ((create_sssd_config "/back" wEmpty confAlice).2.1.restore.getD [])).1.fileExists
      sssd_conf_path) = true ∧
    (create_virt_card_service "/back" "alice" "/cd" wEmpty confAlice).2.1 = confAlice ∧
    ((create_virt_card_service "/back" "alice" "/cd" wEmpty confAlice).2.2.1.all
        fun e => !e.isAppend) = true ∧
    ((cleanup_ (create_virt_card_service "/back" "alice" "/cd" wEmpty confAlice).1
        ((create_virt_card_service "/back" "alice" "/cd" wEmpty
            confAlice).2.1.restore.getD [])).1.fileExists
      (virt_card_service_path "alice")) = true := by
  refine ⟨rfl, rfl, rfl, rfl, rfl, rfl⟩

/-- C3 (amended): when the target of a provisioning mutation —
`create_sssd_config`'s SSSD config or `create_virt_card_service`'s unit
file — does not exist beforehand, no restore record is appended (the
document is returned unchanged and the trace is the bare mutation), so
after the mutation and a cleanup pass over the journal — empty before the
step — the newly created target still exists. -/
theorem absent_target_not_journaled (br username card_dir : String)
    (w : World) (conf : Doc)
    (h1 : w.fileExists sssd_conf_path = false)
    (h2 : conf.restore = some [])
    (h3 : w.fileExists (virt_card_service_path username) = false) :
    (create_sssd_config br w conf).2.1 = conf ∧
    (create_sssd_config br w conf).2.2.1 = [Event.mutateEv sssd_conf_path] ∧
    ((cleanup_ (create_sssd_config br w conf).1
        ((create_sssd_config br w conf).2.1.restore.getD [])).1.fileExists
      sssd_conf_path) = true ∧
    (create_virt_card_service br username card_dir w conf).2.1 = conf ∧
    (create_virt_card_service br username card_dir w conf).2.2.1 =
      [Event.mutateEv (virt_card_service_path username)] ∧
    ((cleanup_ (create_virt_card_service br username card_dir w conf).1
        ((create_virt_card_service br username card_dir w conf).2.1.restore.getD
          [])).1.fileExists (virt_card_service_path username)) = true := by
  have hc : create_sssd_config br w conf =
      (w.writeFile sssd_conf_path sssdDefaultContent, conf,
       [Event.mutateEv sssd_conf_path], none) := by
    simp [create_sssd_config, h1]
  have hv : create_virt_card_service br username card_dir w conf =
      (w.writeFile (virt_card_service_path username)
        (virtCardServiceContent username card_dir), conf,
       [Event.mutateEv (virt_card_service_path username)], none) := by
    simp [create_virt_card_service, h3]
  refine ⟨by rw [hc], by rw [hc], ?_, by rw [hv], by rw [hv], ?_⟩
  · rw [hc]
    simp [h2, cleanup_, fileExists_writeFile_self]
  · rw [hv]
    simp [h2, cleanup_, fileExists_writeFile_self]

/-- C3 witness: the amended behaviour at a concrete empty host, for both
provisioning steps. -/
theorem absent_target_not_journaled_witness :
    (create_sssd_config "/b2" wEmpty confAlice).2.1 = confAlice ∧
    (create_sssd_config "/b2" wEmpty confAlice).2.2.1 =
      [Event.mutateEv sssd_conf_path] ∧
    ((cleanup_ (create_sssd_config "/b2" wEmpty confAlice).1
        ((create_sssd_config "/b2" wEmpty confAlice).2.1.restore.getD [])).1.fileExists
      sssd_conf_path) = true ∧
    (create_virt_card_service "/b2" "bob" "/cd" wEmpty confAlice).2.1 = confAlice ∧
    (create_virt_card_service "/b2" "bob" "/cd" wEmpty confAlice).2.2.1 =
      [Event.mutateEv (virt_card_service_path "bob")] ∧
    ((cleanup_ (create_virt_card_service "/b2" "bob" "/cd" wEmpty confAlice).1
        ((create_virt_card_service "/b2" "bob" "/cd" wEmpty
            confAlice).2.1.restore.getD [])).1.fileExists
      (virt_card_service_path "bob")) = true :=
  absent_target_not_journaled "/b2" "bob" "/cd" wEmpty confAlice rfl rfl rfl

/-- C4 counterexample: the claim that the cleanup command loads the restore
records, runs the cleanup engine over them and exits zero exactly when all
were reversed is false.  With an empty journal a full cleanup pass
trivially reverses every record, yet the command exits non-zero; and with a
journal holding a backup-less `file` record for `/b` the command exits
non-zero leaving `/b` in place, having run neither the cleanup engine —
which would delete `/b` — nor even the script. -/
theorem cleanup_ca_never_runs_engine_counterexample :
    cleanup_ca scriptNoop confAlice cWorldB = (cWorldB, 1) ∧
    confAlice.restore = some [] ∧
    cleanup_ cWorldB (confAlice.restore.getD []) = (cWorldB, none) ∧
    cleanup_ca scriptNoop confJournal cWorldB = (cWorldB, 1) ∧
    cWorldB.fileExists "/b" = true ∧
    cleanup_ cWorldB (confJournal.restore.getD []) =
      ({ files := [], dirs := [], users := [] }, none) := by
  refine ⟨rfl, rfl, rfl, rfl, rfl, rfl⟩

/-- C4 (amended): the cleanup command takes no resource-specific arguments,
but it neither loads the restore list nor runs the cleanup engine — nor
anything else: `--conf` is declared on a parameterless callback, so click's
dispatch raises `TypeError` on every invocation, and the command always
exits non-zero with the host untouched, whatever the document and whatever
the external script would have done. -/
theorem cleanup_ca_always_fails (script : String → World → World × Int)
    (conf : Doc) (w : World) :
    cleanup_ca script conf w = (w, 1) := rfl

/-- C5 counterexample: the claim that a second cleanup pass over a journal
of backup-less File and Directory records raises no error is false for the
File path.  Over the journal `[file /a (no backup)]`, the first pass
deletes `/a` and succeeds; the second pass raises `FileNotFoundError`
because `os.remove` fails on the absent file. -/
theorem file_deletion_second_pass_raises :
    cleanup_ wFileA [mkRecord "file" "/a" none] =
      ({ files := [], dirs := [], users := [] }, none) ∧
    cleanup_ (cleanup_ wFileA [mkRecord "file" "/a" none]).1
        [mkRecord "file" "/a" none] =
      ({ files := [], dirs := [], users := [] },
       some (PyErr.fileNotFoundError "/a")) := by
  refine ⟨rfl, rfl⟩

/-- Cleanup over records that are all of kind `dir`, carry a source and no
backup location never raises: the branch is `rmtree` with errors ignored. -/
theorem cleanup_dir_only_no_error (j : List Item) :
    ∀ w : World,
      (∀ it ∈ j, it.type_ = "dir" ∧ it.src.isSome ∧ it.backup_dir = none) →
      (cleanup_ w j).2 = none := by
  induction j with
  | nil => intro w _; rfl
  | cons it rest ih =>
    intro w h
    obtain ⟨hty, hsrc, hb⟩ := h it (by simp)
    obtain ⟨s, hs⟩ := Option.isSome_iff_exists.mp hsrc
    have hitem : cleanupItem w it = (w.rmtree s, .ok .deletedDir) := by
      simp [cleanupItem, hty, hs, hb]
    simp only [cleanup_, hitem]
    exact ih _ (fun x hx => h x (List.mem_cons_of_mem it hx))

/-- C5 (amended): cleanup is idempotent on its Directory deletion path but
not on its File deletion path.  For every journal whose records are all of
kind `dir` with a source and no backup location, a pass raises no error and
neither does a second pass over the same journal (deletion of an absent
tree is ignored); the File counterpart fails on the second pass. -/
theorem dir_deletion_idempotent (w : World) (j : List Item)
    (h : ∀ it ∈ j, it.type_ = "dir" ∧ it.src.isSome ∧ it.backup_dir = none) :
    (cleanup_ w j).2 = none ∧ (cleanup_ (cleanup_ w j).1 j).2 = none :=
  ⟨cleanup_dir_only_no_error j w h, cleanup_dir_only_no_error j _ h⟩

/-- C5 witness: double cleanup of a concrete directory journal. -/
theorem dir_deletion_idempotent_witness :
    (cleanup_ wDirT [mkRecord "dir" "/t" none]).2 = none ∧
    (cleanup_ (cleanup_ wDirT [mkRecord "dir" "/t" none]).1
        [mkRecord "dir" "/t" none]).2 = none :=
  dir_deletion_idempotent wDirT [mkRecord "dir" "/t" none] (by decide)

/-- C6: both provisioning steps that overwrite an already-existing file
emit their actions in the strict order backup, then journal append, then
mutation: with the target present and a readable journal, the trace of
`create_sssd_config` and of `create_virt_card_service` is exactly the
backup of the target, the append of the `file` record carrying the backup
path, and the overwrite, in that order. -/
theorem backup_append_mutate_order (br username card_dir : String) (w : World)
    (conf : Doc) (l : List Item)
    (h1 : w.fileExists sssd_conf_path = true)
    (h2 : conf.restore = some l)
    (h3 : w.fileExists (virt_card_service_path username) = true) :
    (create_sssd_config br w conf).2.2.1 =
      [Event.backupEv sssd_conf_path (backupDest br "sssd-original.conf"),
       Event.appendEv (mkRecord "file" sssd_conf_path
         (some (backupDest br "sssd-original.conf"))),
       Event.mutateEv sssd_conf_path] ∧
    (create_virt_card_service br username card_dir w conf).2.2.1 =
      [Event.backupEv (virt_card_service_path username)
         (backupDest br (virt_card_backup_name username)),
       Event.appendEv (mkRecord "file" (virt_card_service_path username)
         (some (backupDest br (virt_card_backup_name username)))),
       Event.mutateEv (virt_card_service_path username)] := by
  constructor
  · have h1' : (lookupA w.files sssd_conf_path).isSome = true := h1
    obtain ⟨c, hc⟩ := Option.isSome_iff_exists.mp h1'
    simp [create_sssd_config, h1, backup_, hc, add_restore, h2]
  · have h3' : (lookupA w.files (virt_card_service_path username)).isSome = true := h3
    obtain ⟨c, hc⟩ := Option.isSome_iff_exists.mp h3'
    simp [create_virt_card_service, h3, backup_, hc, add_restore, h2]

/-- C6 witness: the ordered trace at a concrete host where both targets
exist. -/
theorem backup_append_mutate_order_witness :
    (create_sssd_config "/back" wBoth confAlice).2.2.1 =
      [Event.backupEv sssd_conf_path (backupDest "/back" "sssd-original.conf"),
       Event.appendEv (mkRecord "file" sssd_conf_path
         (some (backupDest "/back" "sssd-original.conf"))),
       Event.mutateEv sssd_conf_path] ∧
    (create_virt_card_service "/back" "alice" "/cd" wBoth confAlice).2.2.1 =
      [Event.backupEv (virt_card_service_path "alice")
         (backupDest "/back" (virt_card_backup_name "alice")),
       Event.appendEv (mkRecord "file" (virt_card_service_path "alice")
         (some (backupDest "/back" (virt_card_backup_name "alice")))),
       Event.mutateEv (virt_card_service_path "alice")] :=
  backup_append_mutate_order "/back" "alice" "/cd" wBoth confAlice []
    rfl rfl rfl

/-- C7: `add_restore` is a pure append on the document: over any sequence
of appends the whole run succeeds, the restore list is the old list with
exactly the new records appended in call order — none lost or duplicated —
and every other field of the document is round-tripped unchanged. -/
theorem add_restore_frame_and_order (conf : Doc) (l : List Item)
    (recs : List (String × String × Option String))
    (h : conf.restore = some l) :
    (appendAll conf recs).2 = none ∧
    (appendAll conf recs).1.restore =
      some (l ++ recs.map fun r => mkRecord r.1 r.2.1 r.2.2) ∧
    (appendAll conf recs).1.local_user_name = conf.local_user_name ∧
    (appendAll conf recs).1.other = conf.other := by
  induction recs generalizing conf l with
  | nil => simp [appendAll, h]
  | cons r rest ih =>
    obtain ⟨t, s, b⟩ := r
    have hstep : add_restore conf t s b =
        (decide (t ∉ knownTypes),
         .ok { conf with restore := some (l ++ [mkRecord t s b]) }) := by
      simp [add_restore, h]
    have ih' := ih { conf with restore := some (l ++ [mkRecord t s b]) }
      (l ++ [mkRecord t s b]) rfl
    simp only [appendAll, hstep]
    refine ⟨ih'.1, ?_, ih'.2.2.1, ih'.2.2.2⟩
    rw [ih'.2.1]
    simp [List.append_assoc]

/-- C7 witness: two concrete appends land in order on the empty journal
with the settings round-tripped. -/
theorem add_restore_frame_and_order_witness :
    (appendAll confAlice recsW).2 = none ∧
    (appendAll confAlice recsW).1.restore =
      some ([] ++ recsW.map fun r => mkRecord r.1 r.2.1 r.2.2) ∧
    (appendAll confAlice recsW).1.local_user_name = confAlice.local_user_name ∧
    (appendAll confAlice recsW).1.other = confAlice.other :=
  add_restore_frame_and_order confAlice [] recsW rfl

/-- C8: a record whose kind is outside the closed set {user, file, dir} is
still appended by `add_restore` — with the warning flag raised — and the
cleanup engine neither crashes on it nor drops the rest of the pass: the
record is skipped with a warning and cleanup of the remaining records is
exactly cleanup without it. -/
theorem unknown_kind_append_and_skip (conf : Doc) (l : List Item) (t s : String)
    (b : Option String) (w : World) (rest : List Item)
    (hk : t ∉ knownTypes) (hr : conf.restore = some l) :
    add_restore conf t s b =
      (true, .ok { conf with restore := some (l ++ [mkRecord t s b]) }) ∧
    cleanupItem w (mkRecord t s b) = (w, .ok .skippedUnknown) ∧
    cleanup_ w (mkRecord t s b :: rest) = cleanup_ w rest := by
  have h1 : t ≠ "user" := fun hh => hk (by simp [knownTypes, hh])
  have h2 : t ≠ "file" := fun hh => hk (by simp [knownTypes, hh])
  have h3 : t ≠ "dir" := fun hh => hk (by simp [knownTypes, hh])
  have hw : decide (t ∉ knownTypes) = true := decide_eq_true hk
  have hitem : cleanupItem w (mkRecord t s b) = (w, .ok .skippedUnknown) := by
    simp [cleanupItem, mkRecord, bne_iff_ne, beq_iff_eq, h1, h2, h3]
  refine ⟨?_, hitem, ?_⟩
  · simp [add_restore, hr, hw]
  · simp only [cleanup_, hitem]

/-- C8 witness: the kind `group` is appended with a warning and skipped by
cleanup without aborting the pass. -/
theorem unknown_kind_append_and_skip_witness :
    add_restore confAlice "group" "/g" none =
      (true, .ok { confAlice with
                   restore := some ([] ++ [mkRecord "group" "/g" none]) }) ∧
    cleanupItem wEmpty (mkRecord "group" "/g" none) =
      (wEmpty, .ok .skippedUnknown) ∧
    cleanup_ wEmpty (mkRecord "group" "/g" none :: []) = cleanup_ wEmpty [] :=
  unknown_kind_append_and_skip confAlice [] "group" "/g" none wEmpty []
    (by decide) rfl

/-- C9: provisioning only ever journals `file` records: every append event
of `create_sssd_config` and `create_virt_card_service` carries a record of
kind `file`, and `setup_virt_card_` — the step that creates the OS account
with `useradd` — emits no append event at all and returns the configuration
document unchanged, so no cleanup pass over the journal removes an account
created by provisioning. -/
theorem provisioning_appends_only_file_records (br username card_dir : String)
    (w : World) (conf : Doc) (u : UserInfo) (ok : Bool) :
    ((create_sssd_config br w conf).2.2.1.all fun e => !e.isNonFileAppend)
      = true ∧
    ((create_virt_card_service br username card_dir w conf).2.2.1.all
        fun e => !e.isNonFileAppend) = true ∧
    ((setup_virt_card_ u ok w conf).2.2.1.all fun e => !e.isAppend) = true ∧
    (setup_virt_card_ u ok w conf).2.1 = conf := by
  refine ⟨?_, ?_, ?_, ?_⟩
  · unfold create_sssd_config
    repeat' split
    all_goals rfl
  · simp only [create_virt_card_service]
    repeat' split
    all_goals rfl
  · simp only [setup_virt_card_]
    repeat' split
    all_goals rfl
  · simp only [setup_virt_card_]
    repeat' split
    all_goals rfl
